import Mathlib

/-!
Shallow embedding of `src/blocks/sound.rs` (i3status-rust sound block).

Strings are modelled as `List Char` (`Str`). External effects (running
`amixer`, talking to the PulseAudio client thread, sending on a crossbeam
channel) are modelled by explicit parameters: an `Option Str` for the captured
output of a subprocess (`none` = the command could not run), and a `Bool`
flag for whether the external call succeeds. Fallible Rust methods returning
`Result<()>` and mutating `&mut self` are embedded as functions
`State → State × Option String`, where the returned state is exactly the
state `self` holds at the Rust return point (so early `?` returns carry the
unmodified state) and the second component is `some msg` for the `Err` case,
carrying the message given to `block_error`.
-/

set_option autoImplicit false

/-- Strings as character lists; Rust `&str`/`String` values. -/
abbrev Str := List Char

/-- Splits a character list at every character satisfying `p`, keeping empty
segments (the semantics of Rust `split` on a pattern). -/
def splitOnPred (p : Char → Bool) : Str → List Str
  | [] => [[]]
  | c :: rest =>
    let r := splitOnPred p rest
    if p c then [] :: r
    else
      match r with
      | [] => [[c]]
      | h :: t => (c :: h) :: t

/-- Rust `str::split_whitespace`: split on whitespace, discarding empty
segments. -/
def splitWhitespace (s : Str) : List Str :=
  (splitOnPred (fun c => c.isWhitespace) s).filter (fun x => x ≠ [])

/-- Rust `str::trim`: remove leading and trailing whitespace. -/
def rustTrim (s : Str) : Str :=
  ((s.dropWhile (fun c => c.isWhitespace)).reverse.dropWhile
    (fun c => c.isWhitespace)).reverse

/-- Rust `str::lines` on an already-trimmed string (the code always calls
`.trim()` first, so the input never ends with a newline): split on `'\n'`,
dropping a trailing `'\r'` from each line; the empty string has no lines. -/
def rustLines (s : Str) : List Str :=
  if s = [] then []
  else (splitOnPred (fun c => c = '\n') s).map
    (fun l => if l.getLast? = some '\r' then l.dropLast else l)

/-- Rust `str::trim_matches(fil)`: repeatedly strip characters of `fil` from
both ends. -/
def trimMatches (fil : List Char) (s : Str) : Str :=
  ((s.dropWhile (fun c => fil.contains c)).reverse.dropWhile
    (fun c => fil.contains c)).reverse

/-- Rust `str::contains(needle)`: substring test. -/
def containsSub (hay needle : Str) : Bool :=
  (List.range (hay.length + 1)).any (fun i => needle.isPrefixOf (hay.drop i))

/-- Rust `str::parse::<u32>()`: an optional leading `'+'`, then one or more
ASCII digits, rejecting overflow past `u32::MAX`. -/
def parseU32 (s : Str) : Option Nat :=
  let digits := match s with
    | '+' :: rest => rest
    | _ => s
  if digits = [] then none
  else if digits.all (fun c => c.isDigit) then
    let n := digits.foldl (fun acc c => acc * 10 + (c.toNat - 48)) 0
    if n < 2 ^ 32 then some n else none
  else none

/-- The `i32` wrap-around reinterpretation: embeds both the `as i32` cast of a
`u32` value and release-mode wrapping of `i32` arithmetic, mapping any integer
into `[-2^31, 2^31)`. -/
def wrapI32 (x : Int) : Int :=
  (x + 2147483648) % 4294967296 - 2147483648

/-- The `FILTER` constant: `['[', ']', '%']`. -/
def FILTER : List Char := ['[', ']', '%']

/-- The "dB" marker filtered out of `amixer` tokens. -/
def dBStr : Str := ['d', 'B']

/-- Rust "off" token compared against for the mute flag. -/
def offStr : Str := ['o', 'f', 'f']

/-- The `AlsaSoundDevice` struct: local last-known state plus the
configuration used to build `amixer` argument lists. -/
structure AlsaSoundDevice where
  name : Str
  device : Str
  natural_mapping : Bool
  volume : Nat
  muted : Bool
deriving Repr, DecidableEq

/-- `AlsaSoundDevice::get_info`: `output` is the trimmed-later stdout of the
`amixer ... get` invocation (`none` when the command could not run). Takes the
last output line, keeps whitespace-separated tokens that start with `'['` and
do not contain `"dB"`, strips `'['`/`']'`/`'%'`; the first surviving token
must parse as a `u32` (volume), the second, when present, sets
`muted = (token == "off")`, defaulting to `false`. Each error site returns the
state exactly as it stands at that Rust `?`. -/
def AlsaSoundDevice.get_info (output : Option Str) (sd : AlsaSoundDevice) :
    AlsaSoundDevice × Option String :=
  match output with
  | none => (sd, some "could not run amixer to get sound info")
  | some raw =>
    match (rustLines (rustTrim raw)).getLast? with
    | none => (sd, some "could not get sound info")
    | some last_line =>
      let last := ((splitWhitespace last_line).filter
        (fun x => (match x with | '[' :: _ => true | _ => false)
          && !(containsSub x dBStr))).map (trimMatches FILTER)
      match last.get? 0 with
      | none => (sd, some "could not get volume")
      | some tok =>
        match parseU32 tok with
        | none => (sd, some "could not parse volume to u32")
        | some v =>
          let sd := { sd with volume := v }
          let sd := { sd with
            muted := ((last.get? 1).map (fun m => m == offStr)).getD false }
          (sd, none)

/-- `AlsaSoundDevice::set_volume(step)`: computes
`max(0, self.volume as i32 + step) as u32`, runs `amixer ... set ... <n>%`
(success given by `cmdOk`; on failure the `?` returns before the field is
assigned), then stores the new volume unconditionally. There is no upper
clamp. -/
def AlsaSoundDevice.set_volume (cmdOk : Bool) (sd : AlsaSoundDevice)
    (step : Int) : AlsaSoundDevice × Option String :=
  let volume := (max 0 (wrapI32 (wrapI32 (sd.volume : Int) + step))).toNat
  if cmdOk then ({ sd with volume := volume }, none)
  else (sd, some "failed to set volume")

/-- `AlsaSoundDevice::toggle`: runs `amixer ... set ... toggle` (success given
by `cmdOk`), then flips the local flag optimistically; on command failure the
`?` returns before the flip. -/
def AlsaSoundDevice.toggle (cmdOk : Bool) (sd : AlsaSoundDevice) :
    AlsaSoundDevice × Option String :=
  if cmdOk then ({ sd with muted := !sd.muted }, none)
  else (sd, some "failed to toggle mute")

/-- Modelled from the spec: the sound-server volume type's "100%" reference
(`pulse::volume::VOLUME_NORM`, the defined 100% normalization reference of the
vendored pulse crate, which is outside this file); the standard PulseAudio
value `0x10000`. -/
def VOLUME_NORM : Nat := 65536

/-- Modelled from the spec: the max-volume-constant
(`pulse::volume::VOLUME_MAX` of the vendored pulse crate, outside this file);
the standard PulseAudio value `u32::MAX / 2`. -/
def VOLUME_MAX : Nat := 2147483647

/-- The `PulseAudioClientRequest` command vocabulary; `ChannelVolumes` is
modelled as the list of per-channel `u32` volume values. -/
inductive PulseAudioClientRequest where
  | GetDefaultDevice
  | GetSinkInfoByIndex (index : Nat)
  | GetSinkInfoByName (name : Str)
  | SetSinkVolumeByName (name : Str) (volumes : List Nat)
  | SetSinkMuteByName (name : Str) (mute : Bool)
deriving Repr, DecidableEq

/-- `PulseAudioClient::send(request)`: enqueues on the singleton client's
channel. `clientOk` models whether the lazily-constructed `PULSEAUDIO_CLIENT`
singleton is `Ok`; when it is `Err`, `send` fails with a connection error. -/
def PulseAudioClient.send (clientOk : Bool) (request : PulseAudioClientRequest) :
    Option String :=
  if clientOk then none
  else some "pulseaudio connection failed with error"

/-- `PulseAudioClient::send_update_event`: iterates the listener registry (a
list of `(id, alive)` pairs, `alive` modelling whether the crossbeam send to
that listener's channel succeeds) and calls `send(..).unwrap()` on each.
Returns the list of ids actually delivered to, and a flag that is `true` when
a failed send made `.unwrap()` panic (which also stops the iteration). -/
def send_update_event : List (Str × Bool) → List Str × Bool
  | [] => ([], false)
  | (id, alive) :: rest =>
    if alive then
      let r := send_update_event rest
      (id :: r.1, r.2)
    else ([], true)

/-- A `PULSEAUDIO_SINKS` cache entry: `{volume vector, muted}`. -/
structure PulseAudioSinkInfo where
  volume : List Nat
  mute : Bool
deriving Repr, DecidableEq

/-- The `PulseAudioSoundDevice` struct: optional configured sink name, the
last cached channel-volume vector (`None` until a cache hit), the derived
average percentage, and the mute flag. -/
structure PulseAudioSoundDevice where
  name : Option Str
  volume : Option (List Nat)
  volume_avg : Nat
  muted : Bool
deriving Repr, DecidableEq

/-- `ChannelVolumes::avg`: integer mean of the channel values (modelled from
the spec's "average volume: mean of the channel vector"; the implementation
lives in the vendored pulse crate, outside this file). -/
def cvolumesAvg (v : List Nat) : Nat := v.sum / v.length

/-- Exact-rational model of the `f32` expression
`(avg as f32 / VOLUME_NORM as f32 * 100.0).round() as u32`: rounds
`avg * 100 / VOLUME_NORM` to the nearest integer, halves away from zero. -/
def volumeAvgPercent (v : List Nat) : Nat :=
  (cvolumesAvg v * 100 * 2 + VOLUME_NORM) / (2 * VOLUME_NORM)

/-- Exact-rational model of the `f32` expression
`(step as f32 * VOLUME_NORM as f32 / 100.0).round() as i32`: rounds
`step * VOLUME_NORM / 100` to the nearest integer, halves away from zero. -/
def stepNative (step : Int) : Int :=
  if 0 ≤ step then ((step.toNat * VOLUME_NORM * 2 + 100) / 200 : Nat)
  else -(((-step).toNat * VOLUME_NORM * 2 + 100) / 200 : Nat)

/-- The per-channel body of the `set_volume` loop:
`vol.0 = min(max(0, vol.0 as i32 + step) as u32, VOLUME_MAX.0)` for a native
step `stepN`. -/
def clampChannel (stepN : Int) (c : Nat) : Nat :=
  min (max 0 (wrapI32 (wrapI32 (c : Int) + stepN))).toNat VOLUME_MAX

/-- `PulseAudioSoundDevice::name(&self)` (named `resolvedName` here because
the struct field is already called `name`): the configured name if present,
else the process-wide `PULSEAUDIO_DEFAULT_SINK` value, passed in as
`defaultSink`. -/
def PulseAudioSoundDevice.resolvedName (defaultSink : Str)
    (st : PulseAudioSoundDevice) : Str :=
  st.name.getD defaultSink

/-- `PulseAudioSoundDevice::volume(&mut self, volume)` (named `updateVolume`
here, same field-name clash): stores the vector and recomputes the derived
average percentage. -/
def PulseAudioSoundDevice.updateVolume (st : PulseAudioSoundDevice)
    (volume : List Nat) : PulseAudioSoundDevice :=
  { st with volume := some volume, volume_avg := volumeAvgPercent volume }

/-- `PulseAudioSoundDevice::new()`: sends `GetDefaultDevice`, builds the
default-initialized device, sends `GetSinkInfoByName(self.name())`; either
failing send propagates as an error. Both sends are fire-and-forget, so the
returned device still holds the default local state. -/
def PulseAudioSoundDevice.new (clientOk : Bool) (defaultSink : Str) :
    Except String PulseAudioSoundDevice :=
  match PulseAudioClient.send clientOk .GetDefaultDevice with
  | some e => .error e
  | none =>
    let device : PulseAudioSoundDevice :=
      { name := none, volume := none, volume_avg := 0, muted := false }
    match PulseAudioClient.send clientOk
        (.GetSinkInfoByName (device.resolvedName defaultSink)) with
    | some e => .error e
    | none => .ok device

/-- `PulseAudioSoundDevice::with_name(name)`: sends `GetSinkInfoByName(name)`
(fire-and-forget) and returns the device with the configured name and default
local state. -/
def PulseAudioSoundDevice.with_name (clientOk : Bool) (name : Str) :
    Except String PulseAudioSoundDevice :=
  match PulseAudioClient.send clientOk (.GetSinkInfoByName name) with
  | some e => .error e
  | none =>
    .ok { name := some name, volume := none, volume_avg := 0, muted := false }

/-- The `SoundDevice::volume()` getter for `PulseAudioSoundDevice` (named
`volumeRead` for the same field-name clash): returns `self.volume_avg`. -/
def PulseAudioSoundDevice.volumeRead (st : PulseAudioSoundDevice) : Nat :=
  st.volume_avg

/-- The `SoundDevice::muted()` getter for `PulseAudioSoundDevice`. -/
def PulseAudioSoundDevice.mutedRead (st : PulseAudioSoundDevice) : Bool :=
  st.muted

/-- `PulseAudioSoundDevice::get_info`: looks the resolved name up in the
`PULSEAUDIO_SINKS` cache (modelled as an association list, passed in as
`sinks`); a miss changes nothing, a hit stores the vector (recomputing the
average) and the mute flag. Always `Ok`. -/
def PulseAudioSoundDevice.get_info (sinks : List (Str × PulseAudioSinkInfo))
    (defaultSink : Str) (st : PulseAudioSoundDevice) :
    PulseAudioSoundDevice × Option String :=
  match sinks.lookup (st.resolvedName defaultSink) with
  | none => (st, none)
  | some sink_info =>
    let st := st.updateVolume sink_info.volume
    ({ st with muted := sink_info.mute }, none)

/-- `PulseAudioSoundDevice::set_volume(step)`: fails with "volume unknown"
when no vector is cached; otherwise converts the step to native units, applies
and clamps it per channel, updates the local state optimistically, and sends
`SetSinkVolumeByName` (whose failure propagates after the local update). -/
def PulseAudioSoundDevice.set_volume (clientOk : Bool) (defaultSink : Str)
    (st : PulseAudioSoundDevice) (step : Int) :
    PulseAudioSoundDevice × Option String :=
  match st.volume with
  | none => (st, some "volume unknown")
  | some volume =>
    let stepN := stepNative step
    let volume := volume.map (clampChannel stepN)
    let st := st.updateVolume volume
    match PulseAudioClient.send clientOk
        (.SetSinkVolumeByName (st.resolvedName defaultSink) volume) with
    | none => (st, none)
    | some e => (st, some e)

/-- `PulseAudioSoundDevice::toggle`: flips the local flag first, then sends
`SetSinkMuteByName` (whose failure propagates after the flip). -/
def PulseAudioSoundDevice.toggle (clientOk : Bool) (defaultSink : Str)
    (st : PulseAudioSoundDevice) : PulseAudioSoundDevice × Option String :=
  let st := { st with muted := !st.muted }
  match PulseAudioClient.send clientOk
      (.SetSinkMuteByName (st.resolvedName defaultSink) st.muted) with
  | none => (st, none)
  | some e => (st, some e)

/-- `Sound::new`: the step-width clamp applied to the configured
`step_width` at block construction. -/
def Sound.new_step_width (step_width : Nat) : Nat :=
  if step_width > 50 then 50 else step_width

theorem wrapI32_eq_self (x : Int) (h1 : -(2 ^ 31) ≤ x) (h2 : x < 2 ^ 31) :
    wrapI32 x = x := by
  unfold wrapI32
  omega

/-- C1: counterexample — with local volume 100, a successful `set_volume(1)`
stores 101, exceeding 100, so the CLI backend does not compute
`clamp(v+s, 0, 100)`. -/
theorem alsa_set_volume_exceeds_100 :
    (AlsaSoundDevice.set_volume true ⟨[], [], false, 100, false⟩ 1).1.volume = 101 ∧
    ¬(AlsaSoundDevice.set_volume true ⟨[], [], false, 100, false⟩ 1).1.volume ≤ 100 := by
  decide

/-- C1 (amended): for the CLI backend, a successful `set_volume(step)` (in the
`i32` range, so no wrap-around) sets the local volume to `max(0, v + step)`:
clamped below at 0 but with no upper clamp at 100. -/
theorem alsa_set_volume_clamps_below_only (sd : AlsaSoundDevice) (step : Int)
    (h1 : (sd.volume : Int) < 2 ^ 31)
    (h2 : -(2 ^ 31) ≤ (sd.volume : Int) + step)
    (h3 : (sd.volume : Int) + step < 2 ^ 31) :
    AlsaSoundDevice.set_volume true sd step =
      ({ sd with volume := (max 0 ((sd.volume : Int) + step)).toNat }, none) := by
  have hv : wrapI32 ((sd.volume : Int)) = (sd.volume : Int) :=
    wrapI32_eq_self _ (by omega) h1
  have hvs : wrapI32 ((sd.volume : Int) + step) = (sd.volume : Int) + step :=
    wrapI32_eq_self _ h2 h3
  simp [AlsaSoundDevice.set_volume, hv, hvs]

theorem alsa_set_volume_clamps_below_only_witness :
    AlsaSoundDevice.set_volume true ⟨[], [], false, 30, false⟩ (-100) =
      (⟨[], [], false, 0, false⟩, none) :=
  (alsa_set_volume_clamps_below_only ⟨[], [], false, 30, false⟩ (-100)
    (by decide) (by decide) (by decide)).trans (by decide)

/-- C2: counterexample — with listener "a" disconnected and listener "b"
alive, the broadcast panics on the unwrapped send error and "b" is never
delivered to, refuting "neither aborts nor panics". -/
theorem send_update_event_panics_on_dead_listener :
    send_update_event [(['a'], false), (['b'], true)] = ([], true) := by
  decide

/-- C2 (amended): a failed delivery is fatal to the broadcasting callback —
the unwrapped send error panics it — and listeners after the first failure
receive nothing: at most the listeners before the failing one are delivered
to. -/
theorem send_update_event_dead_listener_fatal (pre : List (Str × Bool))
    (id : Str) (post : List (Str × Bool)) :
    (send_update_event (pre ++ (id, false) :: post)).2 = true ∧
    (send_update_event (pre ++ (id, false) :: post)).1.length ≤ pre.length := by
  induction pre with
  | nil => simp [send_update_event]
  | cons hd tl ih =>
    cases hd with
    | mk i alive =>
      cases alive with
      | false => simp [send_update_event]
      | true =>
        refine ⟨?_, ?_⟩
        · simpa [send_update_event] using ih.1
        · simpa [send_update_event] using Nat.succ_le_succ ih.2

/-- C3: the async backend's `set_volume` with no cached volume vector fails
with the message "volume unknown" and returns the state unchanged (volume
vector, average and mute flag untouched). -/
theorem pulse_set_volume_unknown (clientOk : Bool) (defaultSink : Str)
    (st : PulseAudioSoundDevice) (step : Int) (h : st.volume = none) :
    PulseAudioSoundDevice.set_volume clientOk defaultSink st step =
      (st, some "volume unknown") := by
  unfold PulseAudioSoundDevice.set_volume
  rw [h]

theorem pulse_set_volume_unknown_witness :
    PulseAudioSoundDevice.set_volume true ['s'] ⟨none, none, 7, true⟩ 5 =
      (⟨none, none, 7, true⟩, some "volume unknown") :=
  pulse_set_volume_unknown true ['s'] ⟨none, none, 7, true⟩ 5 rfl

/-- C4: the CLI parser on representative `amixer` outputs: a last line with
`[67%] ... [on]` yields volume 67, unmuted (dB tokens filtered out); one with
`[0%] ... [off]` yields volume 0, muted; one with no second surviving token
defaults to unmuted. -/
theorem alsa_get_info_parses_examples (sd : AlsaSoundDevice) :
    AlsaSoundDevice.get_info
        (some ("Simple mixer control 'Master',0\n  Capabilities: pvolume\n  Mono: Playback 26 [67%] [-16.50dB] [on]").data) sd =
      ({ sd with volume := 67, muted := false }, none) ∧
    AlsaSoundDevice.get_info
        (some ("Mono: Playback 0 [0%] [-99.99dB] [off]").data) sd =
      ({ sd with volume := 0, muted := true }, none) ∧
    AlsaSoundDevice.get_info (some ("Mono: Playback 26 [67%]").data) sd =
      ({ sd with volume := 67, muted := false }, none) :=
  ⟨rfl, rfl, rfl⟩

/-- C5: the async backend's `get_info` on a cache miss (the resolved sink name
absent from the sink cache) returns `Ok` and leaves the whole local state —
volume vector, average percentage and mute flag — unchanged. -/
theorem pulse_get_info_cache_miss (sinks : List (Str × PulseAudioSinkInfo))
    (defaultSink : Str) (st : PulseAudioSoundDevice)
    (h : sinks.lookup (st.resolvedName defaultSink) = none) :
    PulseAudioSoundDevice.get_info sinks defaultSink st = (st, none) := by
  unfold PulseAudioSoundDevice.get_info
  rw [h]

theorem pulse_get_info_cache_miss_witness :
    PulseAudioSoundDevice.get_info [(['x'], ⟨[7], true⟩)] ['d']
        ⟨some ['a'], some [5], 3, true⟩ =
      (⟨some ['a'], some [5], 3, true⟩, none) :=
  pulse_get_info_cache_miss [(['x'], ⟨[7], true⟩)] ['d']
    ⟨some ['a'], some [5], 3, true⟩ rfl

/-- C6: the async backend's `set_volume` with a cached vector `v` stores
exactly the per-channel clamped vector `v.map (clampChannel (stepNative
step))`, recomputes the displayed percentage as its normalized average, and
every resulting channel value lies within `[0, VOLUME_MAX]`. -/
theorem pulse_set_volume_clamps_per_channel (clientOk : Bool)
    (defaultSink : Str) (st : PulseAudioSoundDevice) (step : Int)
    (v : List Nat) (h : st.volume = some v) :
    (PulseAudioSoundDevice.set_volume clientOk defaultSink st step).1.volume =
      some (v.map (clampChannel (stepNative step))) ∧
    (PulseAudioSoundDevice.set_volume clientOk defaultSink st step).1.volume_avg =
      volumeAvgPercent (v.map (clampChannel (stepNative step))) ∧
    ∀ c ∈ v.map (clampChannel (stepNative step)), c ≤ VOLUME_MAX := by
  refine ⟨?_, ?_, ?_⟩
  · unfold PulseAudioSoundDevice.set_volume
    rw [h]
    cases clientOk <;>
      simp [PulseAudioClient.send, PulseAudioSoundDevice.updateVolume]
  · unfold PulseAudioSoundDevice.set_volume
    rw [h]
    cases clientOk <;>
      simp [PulseAudioClient.send, PulseAudioSoundDevice.updateVolume]
  · intro c hc
    obtain ⟨x, _, rfl⟩ := List.mem_map.1 hc
    exact min_le_right _ _

theorem pulse_set_volume_clamps_per_channel_witness :
    (PulseAudioSoundDevice.set_volume true ['s']
        ⟨none, some [65536, 32768], 75, false⟩ 5).1.volume =
      some ([65536, 32768].map (clampChannel (stepNative 5))) ∧
    (PulseAudioSoundDevice.set_volume true ['s']
        ⟨none, some [65536, 32768], 75, false⟩ 5).1.volume_avg =
      volumeAvgPercent ([65536, 32768].map (clampChannel (stepNative 5))) :=
  ⟨(pulse_set_volume_clamps_per_channel true ['s']
      ⟨none, some [65536, 32768], 75, false⟩ 5 [65536, 32768] rfl).1,
   (pulse_set_volume_clamps_per_channel true ['s']
      ⟨none, some [65536, 32768], 75, false⟩ 5 [65536, 32768] rfl).2.1⟩

/-- C7: for both backends, two successive successful `toggle` calls restore
the local mute flag to its original value. -/
theorem toggle_twice_restores_mute :
    (∀ (cmdOk : Bool) (sd sd1 sd2 : AlsaSoundDevice),
        AlsaSoundDevice.toggle cmdOk sd = (sd1, none) →
        AlsaSoundDevice.toggle cmdOk sd1 = (sd2, none) →
        sd2.muted = sd.muted) ∧
    (∀ (clientOk : Bool) (defaultSink : Str)
        (st st1 st2 : PulseAudioSoundDevice),
        PulseAudioSoundDevice.toggle clientOk defaultSink st = (st1, none) →
        PulseAudioSoundDevice.toggle clientOk defaultSink st1 = (st2, none) →
        st2.muted = st.muted) := by
  constructor
  · intro cmdOk sd sd1 sd2 h1 h2
    cases cmdOk
    · simp [AlsaSoundDevice.toggle] at h1
    · simp only [AlsaSoundDevice.toggle, if_true, Prod.mk.injEq, and_true] at h1 h2
      subst h1
      subst h2
      simp
  · intro clientOk defaultSink st st1 st2 h1 h2
    cases clientOk
    · simp [PulseAudioSoundDevice.toggle, PulseAudioClient.send] at h1
    · simp only [PulseAudioSoundDevice.toggle, PulseAudioClient.send, if_true,
        Prod.mk.injEq, and_true] at h1 h2
      subst h1
      subst h2
      simp

theorem toggle_twice_restores_mute_witness :
    (AlsaSoundDevice.mk [] [] false 10 true).muted =
      (AlsaSoundDevice.mk [] [] false 10 true).muted :=
  toggle_twice_restores_mute.1 true ⟨[], [], false, 10, true⟩
    ⟨[], [], false, 10, false⟩ ⟨[], [], false, 10, true⟩ rfl rfl

/-- C8: whenever the CLI backend's `get_info` fails (command cannot run, no
last line, no surviving bracketed token, or an unparsable first token), the
returned state is exactly the prior state: volume and mute flag retained. -/
theorem alsa_get_info_error_keeps_state (output : Option Str)
    (sd sd' : AlsaSoundDevice) (e : String)
    (h : AlsaSoundDevice.get_info output sd = (sd', some e)) : sd' = sd := by
  unfold AlsaSoundDevice.get_info at h
  split at h
  · simp_all
  · split at h
    · simp_all
    · simp only [] at h
      split at h
      · simp_all
      · split at h
        · simp_all
        · simp_all

theorem alsa_get_info_error_keeps_state_witness :
    (AlsaSoundDevice.mk [] [] false 42 true) = ⟨[], [], false, 42, true⟩ :=
  alsa_get_info_error_keeps_state (some ("no brackets here").data)
    ⟨[], [], false, 42, true⟩ ⟨[], [], false, 42, true⟩
    "could not get volume" rfl

/-- C9: at block construction the configured step width is stored as-is when
at most 50 and clamped to 50 when greater. -/
theorem sound_new_step_width_clamped (w : Nat) :
    (w ≤ 50 → Sound.new_step_width w = w) ∧
    (50 < w → Sound.new_step_width w = 50) := by
  constructor
  · intro h
    rw [Sound.new_step_width, if_neg (by omega)]
  · intro h
    rw [Sound.new_step_width, if_pos (by omega)]

theorem sound_new_step_width_clamped_witness :
    Sound.new_step_width 7 = 7 ∧ Sound.new_step_width 60 = 50 :=
  ⟨(sound_new_step_width_clamped 7).1 (by decide),
   (sound_new_step_width_clamped 60).2 (by decide)⟩

/-- C10: any successfully constructed async device (via `new` or `with_name`)
starts with `volume() = 0`, `muted() = false` and no cached vector: the
constructor's queries are fire-and-forget, so this default state is what
callers observe before a cache hit. -/
theorem pulse_device_initial_defaults (clientOk : Bool)
    (defaultSink nm : Str) :
    (∀ st, PulseAudioSoundDevice.new clientOk defaultSink = .ok st →
        st.volumeRead = 0 ∧ st.mutedRead = false ∧ st.volume = none) ∧
    (∀ st, PulseAudioSoundDevice.with_name clientOk nm = .ok st →
        st.volumeRead = 0 ∧ st.mutedRead = false ∧ st.volume = none) := by
  cases clientOk <;> constructor <;> intro st h <;>
    simp [PulseAudioSoundDevice.new, PulseAudioSoundDevice.with_name,
      PulseAudioClient.send] at h <;>
    simp [← h, PulseAudioSoundDevice.volumeRead, PulseAudioSoundDevice.mutedRead]

theorem pulse_device_initial_defaults_witness :
    (PulseAudioSoundDevice.mk none none 0 false).volumeRead = 0 ∧
    (PulseAudioSoundDevice.mk none none 0 false).mutedRead = false ∧
    (PulseAudioSoundDevice.mk none none 0 false).volume = none :=
  (pulse_device_initial_defaults true ['s'] ['n']).1 ⟨none, none, 0, false⟩ rfl
